import Mathlib

/-!
Verification of the DG-LAB V2 device driver core: the strength/waveform
protocol codec (`src/core/bluetooth.py`), the device session
(`src/core/dglab_device.py`, `src/core/models.py`), and the throttled
strength pipeline (`src/plugins/vrchat_osc/plugin.py`), shallowly embedded
in Lean.  Python integers are modelled as `Int` (or `Nat` where the source
value is provably non-negative), byte strings as `List Nat` with each entry
in `[0,255]`, and fallible operations as `Except String`.  Transport I/O is
abstracted by boolean outcome parameters: a `Bool` argument says whether the
corresponding GATT write/read raised.
-/

namespace F3

/-- Python `max(0, min(hi, x))` clamp on integers. -/
def iclamp (hi x : Int) : Int := max 0 (min hi x)

/-- Little-endian 3-byte encoding, the embedding of Python
`value.to_bytes(3, byteorder="little")` (total here; the source value is
always `< 2^24` at the call sites, proved below). -/
def natToBytes3LE (n : Nat) : List Nat :=
  [n % 256, n / 256 % 256, n / 65536 % 256]

/-- Little-endian interpretation of a byte string, the embedding of Python
`int.from_bytes(array, byteorder="little")`. -/
def bytesToNatLE : List Nat → Nat
  | [] => 0
  | b :: bs => b + 256 * bytesToNatLE bs

/-- Embedding of `bluetooth.set_strength`'s frame construction
(`src/core/bluetooth.py` lines 128-153): clamp each channel to `[0,100]`,
rescale to the device range with `int(channel * 1023 / 100)` (floor division,
since the clamped value is non-negative), clamp to `[0,1023]`, double, pack
as `(strength_a << 11) + strength_b` and serialize as 3 little-endian bytes. -/
def set_strength_frame (channel_a channel_b : Int) : List Nat :=
  let ca : Nat := (iclamp 100 channel_a).toNat
  let cb : Nat := (iclamp 100 channel_b).toNat
  let strength_a := min 1023 (ca * 1023 / 100)
  let strength_b := min 1023 (cb * 1023 / 100)
  let combined := ((2 * strength_a) <<< 11) + 2 * strength_b
  natToBytes3LE combined

/-- Embedding of `bluetooth.get_strength`'s decode path
(`src/core/bluetooth.py` lines 92-110): take the first 3 bytes (`array[:3]`),
read them as a 24-bit little-endian integer, extract the two 11-bit fields,
halve each (`// 2`), and rescale to `[0,100]` with
`min(100, max(0, int(raw * 100 / 1023)))`. -/
def get_strength_decode (bs : List Nat) : Nat × Nat :=
  let raw_value := bytesToNatLE (bs.take 3)
  let strength_a_raw := ((raw_value >>> 11) &&& 0x7FF) / 2
  let strength_b_raw := (raw_value &&& 0x7FF) / 2
  (min 100 (strength_a_raw * 100 / 1023), min 100 (strength_b_raw * 100 / 1023))

/-- Embedding of `bluetooth.get_strength`'s result as a fallible computation.
Every step of the source decode (slicing to 3 bytes, `int.from_bytes`,
shifts, masks and divisions) is total on an arbitrary byte string, and the
surrounding `try`/`except` returns `(0, 0)` instead of raising, so the
embedded decoder always returns `Except.ok`. -/
def get_strength_result (bs : List Nat) : Except String (Nat × Nat) :=
  Except.ok (get_strength_decode bs)

/-- Per-pair round-trip property used for claim C1, decidable on `Fin`. -/
def strengthRoundTripOk (a b : Nat) : Prop :=
  let r := get_strength_decode (set_strength_frame (a : Int) (b : Int))
  r.1 ≤ a + 1 ∧ a ≤ r.1 + 1 ∧ r.2 ≤ b + 1 ∧ b ≤ r.2 + 1

instance (a b : Nat) : Decidable (strengthRoundTripOk a b) := by
  unfold strengthRoundTripOk; infer_instance

set_option maxRecDepth 100000 in
set_option maxHeartbeats 1000000 in
theorem strengthRoundTrip_all :
    ∀ p : Fin 101, ∀ q : Fin 101, strengthRoundTripOk p.val q.val := by decide

/-- The encode formula claimed by the spec (claim C2), stated with the
truncating conversion the source actually performs: raw values obtained by
floor division, clamped, doubled, channel A shifted into bits 11-23, packed
little-endian.  Written from the amended claim wording for comparison with
`set_strength_frame`. -/
def encodeStrengthSpecTrunc (a b : Int) : List Nat :=
  let raw_a : Nat := min 1023 ((iclamp 100 a).toNat * 1023 / 100)
  let raw_b : Nat := min 1023 ((iclamp 100 b).toNat * 1023 / 100)
  natToBytes3LE ((2 * raw_a) * 2 ^ 11 + 2 * raw_b)

/-- The decode that claim C3 (from the spec) describes: reject any input that
is not exactly 3 bytes with a protocol error.  Written from the spec's words,
for comparison with the source decoder `get_strength_result`. -/
def decodeStrengthSpecStrict (bs : List Nat) : Except String (Nat × Nat) :=
  if bs.length = 3 then Except.ok (get_strength_decode bs)
  else Except.error "ProtocolError"

/-- Embedding of `bluetooth.set_wave`'s frame construction
(`src/core/bluetooth.py` lines 188-197): clamp X to `[0,31]`, Y to
`[0,1023]`, Z to `[0,31]`, pack `(z << 15) + (y << 5) + x` as 3
little-endian bytes. -/
def set_wave_frame (wave_x wave_y wave_z : Int) : List Nat :=
  let x : Nat := (iclamp 31 wave_x).toNat
  let y : Nat := (iclamp 1023 wave_y).toNat
  let z : Nat := (iclamp 31 wave_z).toNat
  natToBytes3LE ((z <<< 15) + (y <<< 5) + x)

/-- Embedding of `models.ChannelA` / `models.ChannelB` (`src/core/models.py`
lines 17-52): per-channel strength percent plus the three waveform fields. -/
structure ChannelState where
  strength : Int := 0
  wave_x : Int := 0
  wave_y : Int := 0
  wave_z : Int := 0
  deriving Repr, DecidableEq

/-- Embedding of `models.DGLabState` (`src/core/models.py` lines 55-62). -/
structure DGLabState where
  channel_a : ChannelState := {}
  channel_b : ChannelState := {}
  battery : Int := 0
  connected : Bool := false
  device_address : String := ""
  deriving Repr, DecidableEq

/-- Embedding of the mutable fields of `DGLabDevice`
(`src/core/dglab_device.py` lines 29-44).  `client` models
`self.client`: `none` when the Python attribute is `None`, `some c` for a
`BleakClient` whose `is_connected` property reports `c`.  `wave_task` models
whether the waveform-control task object is present. -/
structure DGLabDevice where
  state : DGLabState := {}
  client : Option Bool := none
  wave_task : Bool := false
  channel_a_wave_set : List (Int × Int × Int) := []
  channel_b_wave_set : List (Int × Int × Int) := []
  wave_index_a : Nat := 0
  wave_index_b : Nat := 0
  deriving Repr, DecidableEq

/-- Embedding of the `DGLabDevice.is_connected` property
(`src/core/dglab_device.py` lines 46-49):
`state.connected and client is not None and client.is_connected`. -/
def DGLabDevice.is_connected (d : DGLabDevice) : Bool :=
  d.state.connected && (match d.client with
    | some c => c
    | none => false)

/-- State update performed by `DGLabDevice.set_strength`
(`src/core/dglab_device.py` lines 222-228): clamp both strengths to
`[0,100]` and store them in the UI state before (and regardless of) the
transport write. -/
def set_strength_state (s : DGLabState) (strength_a strength_b : Int) : DGLabState :=
  { s with
    channel_a := { s.channel_a with strength := iclamp 100 strength_a }
    channel_b := { s.channel_b with strength := iclamp 100 strength_b } }

/-- Embedding of `DGLabDevice.set_strength` (`src/core/dglab_device.py`
lines 208-238).  `writeOk` is the outcome of the underlying
`bluetooth.set_strength` GATT write (which swallows transport exceptions and
returns a bool).  Raises `RuntimeError` when not connected; otherwise
updates the state optimistically and returns the stored values whatever the
write outcome. -/
def DGLabDevice.set_strength_dev (d : DGLabDevice) (strength_a strength_b : Int)
    (writeOk : Bool) : Except String (DGLabDevice × (Int × Int)) :=
  if !d.is_connected then Except.error "RuntimeError: device not connected"
  else
    let s := set_strength_state d.state strength_a strength_b
    let _ := writeOk  -- success only affects logging in the source
    Except.ok ({ d with state := s }, (s.channel_a.strength, s.channel_b.strength))

/-- Embedding of Python's `str.upper()` as used for channel names: upper-case
every character (ASCII suffices here — the result is only ever compared
against `"A"` and `"B"`).  Defined by a structural map so that it computes
inside the kernel. -/
def pyUpper (s : String) : String := ⟨s.data.map Char.toUpper⟩

/-- State update performed by `DGLabDevice.set_wave` on a successful write
(`src/core/dglab_device.py` lines 274-283): store the raw (unclamped)
waveform arguments into the addressed channel. -/
def set_wave_state (s : DGLabState) (chanA : Bool) (wave_x wave_y wave_z : Int) :
    DGLabState :=
  if chanA then
    { s with channel_a :=
        { s.channel_a with wave_x := wave_x, wave_y := wave_y, wave_z := wave_z } }
  else
    { s with channel_b :=
        { s.channel_b with wave_x := wave_x, wave_y := wave_y, wave_z := wave_z } }

/-- Embedding of `DGLabDevice.set_wave` (`src/core/dglab_device.py`
lines 240-288).  Raises `RuntimeError` when not connected, `ValueError` when
the upper-cased channel is neither `"A"` nor `"B"`; otherwise performs the
transport write (outcome `writeOk`), updates the channel state only on
success, and returns the success flag to the caller. -/
def DGLabDevice.set_wave_dev (d : DGLabDevice) (wave_x wave_y wave_z : Int)
    (channel : String) (writeOk : Bool) : Except String (DGLabDevice × Bool) :=
  if !d.is_connected then Except.error "RuntimeError: device not connected"
  else
    let ch := pyUpper channel
    if ch = "A" ∨ ch = "B" then
      let d' := if writeOk then
          { d with state := set_wave_state d.state (ch = "A") wave_x wave_y wave_z }
        else d
      Except.ok (d', writeOk)
    else Except.error "ValueError: channel must be A or B"

/-- Embedding of `models.WaveSet.DEFAULT_WAVE_PRESET` (`src/core/models.py`
lines 70-119) as an association list (the preset catalog in effect when no
`waveconfig.yaml` overrides it). -/
def DEFAULT_WAVE_PRESET : List (String × List (Int × Int × Int)) :=
  [("Going_Faster",
    [(5, 135, 20), (5, 125, 20), (5, 115, 20), (5, 105, 20), (5, 95, 20),
     (4, 86, 20), (4, 76, 20), (4, 66, 20), (3, 57, 20), (3, 47, 20),
     (3, 37, 20), (2, 28, 20), (2, 18, 20), (1, 14, 20), (1, 9, 20)]),
   ("Constant", [(8, 512, 15)]),
   ("Pulse", [(10, 600, 15), (0, 0, 0)]),
   ("Wave",
    [(5, 200, 10), (8, 300, 15), (12, 400, 20), (15, 500, 25), (12, 400, 20),
     (8, 300, 15)]),
   ("Intense",
    [(15, 700, 25), (20, 800, 30), (25, 900, 30), (20, 800, 30), (15, 700, 25),
     (0, 0, 0)]),
   ("Rhythm",
    [(15, 600, 20), (0, 0, 0), (15, 600, 20), (0, 0, 0), (15, 600, 20),
     (0, 0, 0)])]

/-- Embedding of `models.WaveSet.get_preset` (`src/core/models.py`
lines 170-177) with the default catalog loaded:
`WAVE_PRESET.get(name, WAVE_PRESET.get("Constant", [(8, 512, 15)]))`. -/
def WaveSet.get_preset (name : String) : List (Int × Int × Int) :=
  match (DEFAULT_WAVE_PRESET.lookup name) with
  | some ws => ws
  | none =>
    match (DEFAULT_WAVE_PRESET.lookup "Constant") with
    | some ws => ws
    | none => [(8, 512, 15)]

/-- Embedding of `DGLabDevice.set_wave_preset` (`src/core/dglab_device.py`
lines 290-319).  Resolves the preset, validates the upper-cased channel
(`ValueError` otherwise), stores the resolved sequence and resets that
channel's cursor to 0, and returns `true`.  Note there is no connectivity
check and no transport parameter: the source performs no hardware I/O. -/
def DGLabDevice.set_wave_preset_dev (d : DGLabDevice) (preset_name : String)
    (channel : String) : Except String (DGLabDevice × Bool) :=
  let wave_set := WaveSet.get_preset preset_name
  let ch := pyUpper channel
  if ch = "A" ∨ ch = "B" then
    if ch = "A" then
      Except.ok ({ d with channel_a_wave_set := wave_set, wave_index_a := 0 }, true)
    else
      Except.ok ({ d with channel_b_wave_set := wave_set, wave_index_b := 0 }, true)
  else Except.error "ValueError: channel must be A or B"

/-- Embedding of the success branch of `DGLabDevice.connect`
(`src/core/dglab_device.py` lines 104-135), entered once the transport is
open and both required service UUIDs were found.  `battery` is the value the
one-shot battery read returns; `okS`, `okWA`, `okWB` are the outcomes of the
initial strength write and the two waveform-register writes (all three are
performed through `set_strength` / `set_wave`, whose connectivity guards
hold here because `connected` was just set and the client is live, so the
state updates below are exactly theirs).  `update_strength` reads the device
but deliberately does not touch the stored state.  Finally the two preset
lists are cleared and the waveform-control task is started. -/
def DGLabDevice.connectSuccess (d : DGLabDevice) (battery : Int)
    (okS okWA okWB : Bool) : DGLabDevice :=
  let d1 : DGLabDevice :=
    { d with
      client := some true
      state := { d.state with connected := true, battery := battery } }
  let _ := okS  -- the initial strength write updates state regardless of outcome
  let s2 := set_strength_state d1.state 1 1
  let s3 := if okWA then set_wave_state s2 true 0 0 0 else s2
  let s4 := if okWB then set_wave_state s3 false 0 0 0 else s3
  { d1 with
    state := s4
    channel_a_wave_set := []
    channel_b_wave_set := []
    wave_task := true }

/-- Embedding of `DGLabDevice.disconnect` (`src/core/dglab_device.py`
lines 150-174).  A no-op when `is_connected` is false.  Otherwise the
waveform task is stopped and cleared, the transport close is attempted
(`closeOk` is its outcome; a close error is logged, not raised), and the
`finally` block clears the client and sets `connected := false`.  No other
state field is touched. -/
def DGLabDevice.disconnect_dev (d : DGLabDevice) (closeOk : Bool) : DGLabDevice :=
  if !d.is_connected then d
  else
    let _ := closeOk  -- close-path errors do not change the final state
    { d with
      wave_task := false
      client := none
      state := { d.state with connected := false } }

/-- One per-channel step of `DGLabDevice._wave_control_loop`
(`src/core/dglab_device.py` lines 334-344): if the channel's preset list is
empty the channel is skipped (nothing written, cursor untouched); otherwise
the triple at the cursor is written through `set_wave` and the cursor
advances modulo the list length.  `List.getD` matches Python indexing on
every state the loop maintains (cursor < length; presets are assigned with
cursor 0 and only ever advanced modulo the length). -/
def waveTick (ws : List (Int × Int × Int)) (i : Nat) :
    Option (Int × Int × Int) × Nat :=
  match ws with
  | [] => (none, i)
  | _ :: _ => (some (ws.getD i (0, 0, 0)), (i + 1) % ws.length)

/-- `k` scheduler ticks of one channel starting from cursor 0: returns the
last triple written (if any) and the final cursor. -/
def waveRun (ws : List (Int × Int × Int)) : Nat → Option (Int × Int × Int) × Nat
  | 0 => (none, 0)
  | k + 1 =>
    let p := waveRun ws k
    let t := waveTick ws p.2
    (match t.1 with
     | some w => some w
     | none => p.1, t.2)

/-- Embedding of the module-level `target_strength` dict of the VRChat OSC
plugin (`src/plugins/vrchat_osc/plugin.py`): the two-key dict
`{"A": _, "B": _}` becomes a pair of fields. -/
structure Targets where
  a : Int := 0
  b : Int := 0
  deriving Repr, DecidableEq

/-- Embedding of `update_target_strength` (`src/plugins/vrchat_osc/plugin.py`
lines 286-293): clamp the request to `[0,100]` and store it into the
addressed channel's target if it differs (`chanA` selects dict key `"A"` vs
`"B"`).  Never blocks and never touches the hardware. -/
def update_target_strength (t : Targets) (chanA : Bool) (strength : Int) : Targets :=
  let clamped := iclamp 100 strength
  if chanA then (if t.a ≠ clamped then { t with a := clamped } else t)
  else (if t.b ≠ clamped then { t with b := clamped } else t)

/-- Embedding of the sender-owned state of `_throttled_strength_sender`
(`src/plugins/vrchat_osc/plugin.py`): `last_sent_strength` (with `-1` as the
never-sent sentinel) and the consecutive-failure counter `error_count`. -/
structure ThrottleState where
  lastA : Int := -1
  lastB : Int := -1
  errorCount : Nat := 0
  deriving Repr, DecidableEq

/-- One iteration of the `_throttled_strength_sender` loop body
(`src/plugins/vrchat_osc/plugin.py` lines 316-369), after the interval
sleep.  `scaleInt` abstracts the float computation
`int(target * float(strength_scale))` (the identity for the default scale
factor 1.0); the result is clamped to `[0,100]`.  `deviceConnected` is the
value of `device.is_connected` for this iteration, `writeOk` tells whether
`device.set_strength` raised.  Returns the new sender state, the strength
pair transmitted this tick (`none` when no write happened), and whether the
10-second backoff pause was taken. -/
def senderTick (scaleInt : Int → Int) (t : Targets) (st : ThrottleState)
    (deviceConnected : Bool) (writeOk : Bool) :
    ThrottleState × Option (Int × Int) × Bool :=
  if !deviceConnected then
    -- lines 324-329: remember to force a send after reconnection
    (if st.lastA ≠ -1 ∨ st.lastB ≠ -1 then { st with lastA := -1, lastB := -1 }
     else st, none, false)
  else
    let ts_a := iclamp 100 (scaleInt t.a)
    let ts_b := iclamp 100 (scaleInt t.b)
    if ts_a ≠ st.lastA ∨ ts_b ≠ st.lastB then
      if writeOk then
        ({ lastA := ts_a, lastB := ts_b, errorCount := 0 }, some (ts_a, ts_b), false)
      else
        let e := st.errorCount + 1
        if e ≥ 5 then ({ lastA := -1, lastB := -1, errorCount := 0 }, none, true)
        else ({ lastA := -1, lastB := -1, errorCount := e }, none, false)
    else (st, none, false)

/-- A run of consecutive failing sender ticks (connected, every write
raising), each observing a possibly different snapshot of the targets. -/
def failRun (scaleInt : Int → Int) (st : ThrottleState) (snaps : List Targets) :
    ThrottleState :=
  snaps.foldl (fun s t => (senderTick scaleInt t s true false).1) st

/-! ## Helper lemmas -/

theorem iclamp_nonneg (hi x : Int) : 0 ≤ iclamp hi x := le_max_left 0 (min hi x)

theorem iclamp_ne_neg_one (hi x : Int) : iclamp hi x ≠ -1 := by
  have h := iclamp_nonneg hi x
  omega

theorem update_target_strength_a (t : Targets) (u : Int) :
    (update_target_strength t true u).a = iclamp 100 u := by
  unfold update_target_strength
  by_cases h : t.a = iclamp 100 u <;> simp [h]

theorem update_target_strength_b (t : Targets) (u : Int) :
    (update_target_strength t true u).b = t.b := by
  unfold update_target_strength
  by_cases h : t.a = iclamp 100 u <;> simp [h]

theorem foldl_update_target (vs : List Int) (v : Int) (t : Targets)
    (hv : vs.getLast? = some v) :
    (vs.foldl (fun acc u => update_target_strength acc true u) t).a = iclamp 100 v ∧
    (vs.foldl (fun acc u => update_target_strength acc true u) t).b = t.b := by
  induction vs generalizing t with
  | nil => simp at hv
  | cons x xs ih =>
    cases xs with
    | nil =>
      simp only [List.getLast?_singleton, Option.some.injEq] at hv
      subst hv
      simp [List.foldl, update_target_strength_a, update_target_strength_b]
    | cons y ys =>
      rw [List.getLast?_cons_cons] at hv
      have h := ih (update_target_strength t true x) hv
      simpa [List.foldl, update_target_strength_b] using h

theorem failRun_sentinel (scaleInt : Int → Int) (st : ThrottleState)
    (snaps : List Targets) (h1 : st.lastA = -1) (h2 : st.lastB = -1) :
    (failRun scaleInt st snaps).lastA = -1 ∧ (failRun scaleInt st snaps).lastB = -1 := by
  induction snaps generalizing st with
  | nil => exact ⟨h1, h2⟩
  | cons t ts ih =>
    have hstep :
        ((senderTick scaleInt t st true false).1).lastA = -1 ∧
        ((senderTick scaleInt t st true false).1).lastB = -1 := by
      have hne := iclamp_ne_neg_one 100 (scaleInt t.a)
      unfold senderTick
      simp only [Bool.not_true, Bool.false_eq_true, if_false]
      rw [if_pos (Or.inl (h1 ▸ hne))]
      by_cases h5 : st.errorCount + 1 ≥ 5 <;> simp [h5]
    simpa [failRun, List.foldl] using ih _ hstep.1 hstep.2

/-! ## Claim theorems -/

/-- C1: for every pair of integers `a, b` in `[0,100]`, decoding the 3-byte
strength frame produced by encoding `(a, b)` yields a pair within ±1 of
`(a, b)` (integer truncation loses at most 1). -/
theorem C1_strength_roundtrip (a b : Nat) (ha : a ≤ 100) (hb : b ≤ 100) :
    strengthRoundTripOk a b :=
  strengthRoundTrip_all ⟨a, Nat.lt_succ_of_le ha⟩ ⟨b, Nat.lt_succ_of_le hb⟩

/-- Witness for C1 at `a = 50`, `b = 0`. -/
theorem C1_strength_roundtrip_witness :
    (50 ≤ 100 ∧ 0 ≤ 100) ∧ strengthRoundTripOk 50 0 :=
  ⟨by decide, C1_strength_roundtrip 50 0 (by decide) (by decide)⟩

/-- C2 counterexample: the source converts with truncation
(`int(channel * 1023 / 100)`), not rounding, so for `a = 50, b = 0` the raw
value is 511 (not 512), the doubled value 1022 (not 1024), and the emitted
frame is `00 F0 1F`, not the claimed `00 00 20`. -/
theorem C2_encode_counterexample :
    set_strength_frame 50 0 = [0x00, 0xF0, 0x1F] ∧
    set_strength_frame 50 0 ≠ [0x00, 0x00, 0x20] := by decide

/-- C2 amended: strength encoding converts each percentage with the
truncating division `raw = (pct * 1023) / 100`, clamps to `[0,1023]`,
doubles, and packs channel A shifted left by 11 bits plus channel B, as a
24-bit little-endian integer; for `a = 50, b = 0` the doubled raw value for
A is 1022 and the emitted bytes are `00 F0 1F`. -/
theorem C2_encode_formula (a b : Int) :
    set_strength_frame a b = encodeStrengthSpecTrunc a b ∧
    set_strength_frame 50 0 = [0x00, 0xF0, 0x1F] := by
  constructor
  · unfold set_strength_frame encodeStrengthSpecTrunc
    simp [Nat.shiftLeft_eq]
  · decide

/-- C3 counterexample: the source decode path does not reject inputs that
are not exactly 3 bytes: it slices to the first 3 bytes and decodes, so a
2-byte read succeeds (while the spec's strict decoder rejects it).  No
`ProtocolError` exists anywhere in the source. -/
theorem C3_decode_counterexample :
    ([(0 : Nat), 240] : List Nat).length ≠ 3 ∧
    (get_strength_result [0, 240]).isOk = true ∧
    (decodeStrengthSpecStrict [0, 240]).isOk = false := by decide

/-- C3 amended: strength encoding is total (out-of-range inputs are clamped,
never rejected) and always emits exactly 3 bytes; strength decoding is also
total: it never fails on any input length, instead decoding the first 3
bytes of its input (`array[:3]`), and the surrounding `try`/`except` maps
any internal error to `(0, 0)` rather than raising. -/
theorem C3_codec_totality (a b : Int) (bs : List Nat) :
    (set_strength_frame a b).length = 3 ∧
    get_strength_result bs = Except.ok (get_strength_decode bs) ∧
    get_strength_decode bs = get_strength_decode (bs.take 3) := by
  refine ⟨by simp [set_strength_frame, natToBytes3LE], rfl, ?_⟩
  simp [get_strength_decode, List.take_take]

/-- C4 counterexample: a connect whose channel-A waveform-register write
fails (the underlying `bluetooth.set_wave` swallows the transport exception
and returns `False`, so `connect` still succeeds) leaves a previously stored
waveform in place: reconnecting a session whose channel A had `wave_x = 5`
reports `wave_x = 5`, not the claimed `(0,0,0)`. -/
theorem C4_connect_counterexample :
    (DGLabDevice.connectSuccess { state := { channel_a := { wave_x := 5 } } }
        90 true false true).state.channel_a.wave_x ≠ 0 := by decide

/-- C4 amended: immediately after every successful `connect()`, both
channels report strength 1 (never 0, stored regardless of the initial
write's outcome) and any previously assigned waveform presets are cleared;
each channel's waveform fields are `(0,0,0)` exactly when that channel's
waveform-register write succeeded, and keep their previous values when it
failed (the failure does not abort the connect). -/
theorem C4_connect_state (d : DGLabDevice) (battery : Int) (okS okWA okWB : Bool) :
    let d' := DGLabDevice.connectSuccess d battery okS okWA okWB
    d'.state.channel_a.strength = 1 ∧
    d'.state.channel_b.strength = 1 ∧
    d'.channel_a_wave_set = [] ∧
    d'.channel_b_wave_set = [] ∧
    d'.state.connected = true ∧
    d'.wave_task = true ∧
    d'.state.battery = battery ∧
    d'.state.channel_a.wave_x = (if okWA then 0 else d.state.channel_a.wave_x) ∧
    d'.state.channel_a.wave_y = (if okWA then 0 else d.state.channel_a.wave_y) ∧
    d'.state.channel_a.wave_z = (if okWA then 0 else d.state.channel_a.wave_z) ∧
    d'.state.channel_b.wave_x = (if okWB then 0 else d.state.channel_b.wave_x) ∧
    d'.state.channel_b.wave_y = (if okWB then 0 else d.state.channel_b.wave_y) ∧
    d'.state.channel_b.wave_z = (if okWB then 0 else d.state.channel_b.wave_z) := by
  cases okWA <;> cases okWB <;>
    simp [DGLabDevice.connectSuccess, set_strength_state, set_wave_state, iclamp]

/-- C5 counterexample: `disconnect()` does not reset the stored state to the
disconnected defaults: for a connected session with battery 77 and channel-A
strength 50, the post-disconnect battery is still 77 (the claim demands 0),
even though the transport close succeeded. -/
theorem C5_disconnect_counterexample :
    let d0 : DGLabDevice :=
      { state := { battery := 77, connected := true, channel_a := { strength := 50 } }
        client := some true }
    d0.is_connected = true ∧
    (d0.disconnect_dev true).state.battery = 77 ∧
    (d0.disconnect_dev true).state.channel_a.strength = 50 ∧ (77 : Int) ≠ 0 := by
  decide

/-- C5 amended: `disconnect()` is a no-op when the device is already
disconnected; otherwise — regardless of whether closing the transport raised
an error — it clears the waveform task and the client handle and sets
`connected := false`, leaving every other `DeviceState` field (battery,
channel strengths and waveforms, address) at its pre-disconnect value rather
than resetting them to the disconnected defaults. -/
theorem C5_disconnect_state (d : DGLabDevice) (closeOk : Bool) :
    d.disconnect_dev closeOk =
      (if d.is_connected then
        { d with
          wave_task := false
          client := none
          state := { d.state with connected := false } }
       else d) := by
  cases h : d.is_connected <;> simp [DGLabDevice.disconnect_dev, h]

/-- C6: any sequence of strength requests on channel A within one sender
interval coalesces: the targets end at the clamp of the last requested
value (channel B untouched), and the next tick performs at most one write —
namely of the scaled, clamped targets, and only when they differ from
`lastSent` for some channel; when the scaled targets of both channels equal
`lastSent`, no write happens at all. -/
theorem C6_throttle_coalescing (scaleInt : Int → Int) (t : Targets)
    (st : ThrottleState) (vs : List Int) (v : Int) (writeOk : Bool)
    (hv : vs.getLast? = some v) :
    (vs.foldl (fun acc u => update_target_strength acc true u) t).a = iclamp 100 v ∧
    (vs.foldl (fun acc u => update_target_strength acc true u) t).b = t.b ∧
    (senderTick scaleInt (vs.foldl (fun acc u => update_target_strength acc true u) t)
        st true writeOk).2.1 =
      (if (iclamp 100 (scaleInt (iclamp 100 v)) ≠ st.lastA ∨
            iclamp 100 (scaleInt t.b) ≠ st.lastB) ∧ writeOk = true
       then some (iclamp 100 (scaleInt (iclamp 100 v)), iclamp 100 (scaleInt t.b))
       else none) := by
  have hA := (foldl_update_target vs v t hv).1
  have hB := (foldl_update_target vs v t hv).2
  refine ⟨hA, hB, ?_⟩
  by_cases hc : (iclamp 100 (scaleInt (iclamp 100 v)) ≠ st.lastA ∨
      iclamp 100 (scaleInt t.b) ≠ st.lastB)
  · cases writeOk
    · simp [senderTick, hA, hB, hc]
      split <;> rfl
    · simp [senderTick, hA, hB, hc]
  · cases writeOk <;> simp [senderTick, hA, hB, hc]

/-- Witness for C6: requests 3, 200, 7 on channel A collapse to a single
write of `(7, 0)` at the next tick. -/
theorem C6_throttle_coalescing_witness :
    (([3, 200, 7] : List Int).getLast? = some 7) ∧
    (senderTick (fun x => x)
        (([3, 200, 7] : List Int).foldl (fun acc u => update_target_strength acc true u)
          { a := 0, b := 0 })
        { lastA := -1, lastB := -1, errorCount := 0 } true true).2.1 = some (7, 0) :=
  ⟨rfl,
   ((C6_throttle_coalescing (fun x => x) { a := 0, b := 0 }
      { lastA := -1, lastB := -1, errorCount := 0 } [3, 200, 7] 7 true rfl).2.2).trans
     (by decide)⟩

/-- C7: a failing write (on a tick that attempted one) increments the
consecutive-failure counter — resetting it, and taking the 10-second pause,
exactly when it reaches 5 — and resets `lastSent` to the `-1` sentinel; as a
consequence, after any run of consecutive failing ticks, one successful tick
transmits exactly the then-current scaled, clamped targets, with no
restriction on those targets: in particular even when they equal the last
value successfully sent before the failures began. -/
theorem C7_throttle_failure_retry (scaleInt : Int → Int) (t : Targets)
    (st : ThrottleState)
    (h : iclamp 100 (scaleInt t.a) ≠ st.lastA ∨ iclamp 100 (scaleInt t.b) ≠ st.lastB) :
    ((senderTick scaleInt t st true false).1.lastA = -1) ∧
    ((senderTick scaleInt t st true false).1.lastB = -1) ∧
    ((senderTick scaleInt t st true false).1.errorCount =
      if st.errorCount + 1 ≥ 5 then 0 else st.errorCount + 1) ∧
    ((senderTick scaleInt t st true false).2.2 = decide (st.errorCount + 1 ≥ 5)) ∧
    ((senderTick scaleInt t st true false).2.1 = none) ∧
    (∀ snaps : List Targets, ∀ t1 : Targets,
      (senderTick scaleInt t1
          (failRun scaleInt (senderTick scaleInt t st true false).1 snaps)
          true true).2.1 =
        some (iclamp 100 (scaleInt t1.a), iclamp 100 (scaleInt t1.b))) := by
  have hstep :
      (senderTick scaleInt t st true false) =
        (if st.errorCount + 1 ≥ 5 then
          ({ lastA := -1, lastB := -1, errorCount := 0 }, none, true)
         else
          ({ lastA := -1, lastB := -1, errorCount := st.errorCount + 1 }, none, false)) := by
    unfold senderTick
    simp only [Bool.not_true, Bool.false_eq_true, if_false]
    rw [if_pos h]
  have hsent : ∀ s : ThrottleState, s.lastA = -1 → s.lastB = -1 → ∀ t1 : Targets,
      (senderTick scaleInt t1 s true true).2.1 =
        some (iclamp 100 (scaleInt t1.a), iclamp 100 (scaleInt t1.b)) := by
    intro s h1 h2 t1
    have hne := iclamp_ne_neg_one 100 (scaleInt t1.a)
    unfold senderTick
    simp only [Bool.not_true, Bool.false_eq_true, if_false]
    rw [if_pos (Or.inl (h1 ▸ hne))]
    simp
  have hsentinel : (senderTick scaleInt t st true false).1.lastA = -1 ∧
      (senderTick scaleInt t st true false).1.lastB = -1 := by
    rw [hstep]
    by_cases h5 : st.errorCount + 1 ≥ 5 <;> simp [h5]
  refine ⟨hsentinel.1, hsentinel.2, ?_, ?_, ?_, ?_⟩
  · rw [hstep]; by_cases h5 : st.errorCount + 1 ≥ 5 <;> simp [h5]
  · rw [hstep]; by_cases h5 : st.errorCount + 1 ≥ 5 <;> simp [h5]
  · rw [hstep]; by_cases h5 : st.errorCount + 1 ≥ 5 <;> simp [h5]
  · intro snaps t1
    have hs := failRun_sentinel scaleInt (senderTick scaleInt t st true false).1 snaps
      hsentinel.1 hsentinel.2
    exact hsent _ hs.1 hs.2 t1

/-- Witness for C7: `lastSent = (20, 30)`; one failing tick (targets
`(10, 0)`), one further failing tick, then a successful tick with targets
back at `(20, 30)` — the write carries `(20, 30)` although it equals the
value sent before the failures. -/
theorem C7_throttle_failure_retry_witness :
    ((iclamp 100 ((10 : Int)) ≠ (20 : Int) ∨ iclamp 100 ((0 : Int)) ≠ (30 : Int))) ∧
    (senderTick (fun x => x) { a := 20, b := 30 }
        (failRun (fun x => x)
          (senderTick (fun x => x) { a := 10, b := 0 }
            { lastA := 20, lastB := 30, errorCount := 0 } true false).1
          [{ a := 1, b := 2 }]) true true).2.1 = some (20, 30) :=
  ⟨by decide,
   ((C7_throttle_failure_retry (fun x => x) { a := 10, b := 0 }
      { lastA := 20, lastB := 30, errorCount := 0 } (by decide)).2.2.2.2.2
      [{ a := 1, b := 2 }] { a := 20, b := 30 }).trans (by decide)⟩

/-- C8: with a non-empty preset of length `n` assigned, each scheduler tick
writes the triple at the current cursor and advances the cursor modulo `n`:
after `k` ticks from cursor 0 the cursor is `k % n` (hence back at 0 after
exactly `n` ticks) and, for `k ≥ 1`, the last-written triple is
`preset[(k-1) % n]`; a channel with no assigned preset is skipped (nothing
written, cursor unchanged). -/
theorem C8_wave_cycle (ws : List (Int × Int × Int)) (k : Nat) (hws : ws ≠ []) :
    (waveRun ws k).2 = k % ws.length ∧
    (1 ≤ k → (waveRun ws k).1 = some (ws.getD ((k - 1) % ws.length) (0, 0, 0))) ∧
    (waveRun ws ws.length).2 = 0 ∧
    (∀ i, waveTick [] i = (none, i)) := by
  have main : ∀ m : Nat, (waveRun ws m).2 = m % ws.length ∧
      (1 ≤ m → (waveRun ws m).1 = some (ws.getD ((m - 1) % ws.length) (0, 0, 0))) := by
    intro m
    induction m with
    | zero => exact ⟨by simp [waveRun], by omega⟩
    | succ m ih =>
      obtain ⟨ih1, ih2⟩ := ih
      cases hcons : ws with
      | nil => exact absurd hcons hws
      | cons w rest =>
        subst hcons
        constructor
        · simp only [waveRun, waveTick]
          rw [ih1, Nat.mod_add_mod]
        · intro _
          simp only [waveRun, waveTick]
          rw [ih1]
          simp
  refine ⟨(main k).1, (main k).2, ?_, fun i => rfl⟩
  rw [(main ws.length).1, Nat.mod_self]

/-- Witness for C8: a 3-element preset; after 3 ticks the last-written
triple is the third element and the cursor is back at 0. -/
theorem C8_wave_cycle_witness :
    (([(1, 2, 3), (4, 5, 6), (7, 8, 9)] : List (Int × Int × Int)) ≠ []) ∧
    (waveRun ([(1, 2, 3), (4, 5, 6), (7, 8, 9)] : List (Int × Int × Int)) 3).2 = 0 ∧
    (waveRun ([(1, 2, 3), (4, 5, 6), (7, 8, 9)] : List (Int × Int × Int)) 3).1 =
      some (7, 8, 9) := by
  have h := C8_wave_cycle ([(1, 2, 3), (4, 5, 6), (7, 8, 9)] : List (Int × Int × Int)) 3
    (by decide)
  exact ⟨by decide, h.1.trans (by decide), (h.2.1 (by decide)).trans (by decide)⟩

/-- C9: with a connected device, `set_wave` validates that the upper-cased
channel is `A` or `B` (raising `ValueError` otherwise), attempts the
transport write, updates the addressed channel's waveform fields exactly
when the write succeeded — leaving the state unchanged on failure — and
returns the success flag to the caller. -/
theorem C9_set_wave (d : DGLabDevice) (x y z : Int) (channel : String)
    (writeOk : Bool) (hconn : d.is_connected = true) :
    d.set_wave_dev x y z channel writeOk =
      (if pyUpper channel = "A" ∨ pyUpper channel = "B" then
        Except.ok
          ((if writeOk then
             { d with state := set_wave_state d.state (pyUpper channel = "A") x y z }
            else d), writeOk)
       else Except.error "ValueError: channel must be A or B") := by
  unfold DGLabDevice.set_wave_dev
  rw [hconn]
  simp

/-- Witness for C9: a lower-case `"a"` channel on a connected device with a
failing write returns `ok (unchanged state, false)`. -/
theorem C9_set_wave_witness :
    ({ state := { connected := true }, client := some true } : DGLabDevice).is_connected
      = true ∧
    ({ state := { connected := true }, client := some true } : DGLabDevice).set_wave_dev
        1 2 3 "a" false =
      Except.ok (({ state := { connected := true }, client := some true } : DGLabDevice),
        false) := by
  refine ⟨by decide, ?_⟩
  rw [C9_set_wave ({ state := { connected := true }, client := some true } : DGLabDevice)
    1 2 3 "a" false (by decide)]
  rw [if_pos (by decide : (pyUpper "a" = "A" ∨ pyUpper "a" = "B"))]
  rfl

/-- C10: assigning a waveform preset needs no connected device and touches
no hardware (the embedded operation takes no transport outcome because the
source performs no I/O): for any preset name and any channel whose
upper-cased form is `A` or `B` it returns `true` and installs the resolved
sequence with the cursor reset to 0, whatever the connection state; it
raises `ValueError` only for an invalid channel; and an unknown preset name
resolves to the `Constant` preset `[(8, 512, 15)]`. -/
theorem C10_set_wave_preset (d : DGLabDevice) (name channel : String) :
    d.set_wave_preset_dev name channel =
      (if pyUpper channel = "A" then
        Except.ok ({ d with
          channel_a_wave_set := WaveSet.get_preset name
          wave_index_a := 0 }, true)
       else if pyUpper channel = "B" then
        Except.ok ({ d with
          channel_b_wave_set := WaveSet.get_preset name
          wave_index_b := 0 }, true)
       else Except.error "ValueError: channel must be A or B") ∧
    (DEFAULT_WAVE_PRESET.lookup name = none →
      WaveSet.get_preset name = [(8, 512, 15)]) := by
  constructor
  · unfold DGLabDevice.set_wave_preset_dev
    by_cases hA : pyUpper channel = "A" <;> by_cases hB : pyUpper channel = "B" <;>
      simp [hA, hB]
  · intro h
    unfold WaveSet.get_preset
    rw [h]
    rfl

end F3
